import Mathlib

/-!
Verification of the swap / liquidity-provision orchestration layer of the
ailey-agent-sdk-react repository.

The development shallowly embeds the code of
`src/hooks/usePoolData.ts` (pool state reader and quote calculator,
including the `useSwapQuote` hook), `src/hooks/useCallSwap.ts` (swap
orchestrator) and `src/hooks/useAddLiquidity.ts` (liquidity orchestrator).

Modelling conventions:
* token amounts, allowances and balances are `Nat` (the code uses
  non-negative `bigint` / JSBI big integers; JSBI division truncates,
  which on non-negative operands is floor division, i.e. `Nat` division);
* addresses are `Nat` in a canonical form (the code compares lowercased
  hex strings; that comparison is order-isomorphic to the numeric order
  of the underlying 160-bit values, and the zero address is `0`);
* values that may be `undefined` in TypeScript are `Option _`;
* the Uniswap pricing library (`pool.priceOf(..).quote(..)`,
  `Position.fromAmounts`) is an external collaborator and is passed in
  as an opaque function argument, following the specification, which
  treats it as an exact, deterministic oracle;
* asynchronous effects become pure functions from their observed inputs
  (fresh allowance reads, receipt outcomes, error objects) to the next
  session state and the list of transactions they issue.
-/

namespace Ailey

/-! ### Substring search

Embeds JavaScript `String.prototype.includes`, used by the error
classification code (`message.includes('User rejected')`,
`message.includes('execution reverted')`, `error?.includes('execution')`).
-/

/-- `leadMatch pat s` is true when `pat` occurs at the very start of `s`. -/
def leadMatch : List Char → List Char → Bool
  | [], _ => true
  | _ :: _, [] => false
  | c :: cs, d :: ds => c == d && leadMatch cs ds

/-- `findSub pat s` is true when `pat` occurs contiguously somewhere in `s`. -/
def findSub (pat : List Char) : List Char → Bool
  | [] => leadMatch pat []
  | d :: rest => leadMatch pat (d :: rest) || findSub pat rest

/-- JavaScript `s.includes(pat)`. -/
def hasSub (s pat : String) : Bool := findSub pat.data s.data

/-! ### Data model -/

/-- A resolved token, as built by `new Token(chainId, address, decimals, symbol)`
in `usePoolData.ts`. -/
structure Token where
  chainId : Nat
  address : Nat
  decimals : Nat
  symbol : String
deriving DecidableEq, Repr

/-- Pool state, as built by `new Pool(tokenIn, tokenOut, fee, sqrtPriceX96, liquidity, tick)`
in `useSwapQuote`. -/
structure Pool where
  sqrtPriceX96 : Nat
  tick : Int
  liquidity : Nat
  fee : Nat
deriving DecidableEq, Repr

/-- The quote produced by `useSwapQuote` (`estimatedAmountOut` / `amountOutMinimum`). -/
structure QuoteResult where
  estimatedAmountOut : Nat
  amountOutMinimum : Nat
deriving DecidableEq, Repr

/-- The external pricing oracle `pool.priceOf(tokenIn).quote(inputAmount)`:
it either yields the estimated output amount or throws (modelled as
`Except.error` carrying the exception text). -/
def PriceOracle : Type := Pool → Token → Nat → Except String Nat

/-- The default slippage factor in basis points.  The source declares
`slippageTolerance = 0.005` and computes
`slippageFactor = Math.floor(slippageTolerance * 10000)`; in IEEE-754
double arithmetic `0.005 * 10000` evaluates to exactly `50`, so the
default slippage factor is the integer `50`. -/
def defaultSlippageFactor : Nat := 50

/-- The `calculateQuote` closure of `useSwapQuote`
(`usePoolData.ts`, quote-calculation effect).  Returns the quote result
(`none` models `setQuoteResult({})`) together with the list of diagnostics
logged via `console.error`.

```
if (!pool || !tokenIn || !tokenOut || !amountIn || amountIn === 0n) { setQuoteResult({}); return; }
try {
  const outputAmount = pool.priceOf(tokenIn).quote(inputAmount);
  const minAmountBI = JSBI.divide(JSBI.multiply(outputAmount.quotient,
      JSBI.subtract(HUNDRED_PERCENT, slippageFactor)), HUNDRED_PERCENT);
  setQuoteResult(\x7b estimatedAmountOut: ..., amountOutMinimum: ... \x7d);
} catch (e) { console.error("Failed to calculate swap quote:", e); setQuoteResult({}); }
```
-/
def calculateQuote (pool : Option Pool) (tokenIn tokenOut : Option Token)
    (amountIn : Nat) (priceQuote : PriceOracle) (slippageFactor : Nat) :
    Option QuoteResult × List String :=
  match pool, tokenIn, tokenOut with
  | some p, some tIn, some _ =>
    if amountIn = 0 then (none, [])
    else
      match priceQuote p tIn amountIn with
      | Except.error e => (none, ["Failed to calculate swap quote: " ++ e])
      | Except.ok est =>
        (some { estimatedAmountOut := est,
                amountOutMinimum := est * (10000 - slippageFactor) / 10000 }, [])
  | _, _, _ => (none, [])

/-! ### Pool state reader: pool-not-found error (`usePoolData`) -/

/-- The zero address `0x0000000000000000000000000000000000000000`. -/
def zeroAddress : Nat := 0

/-- Decimal rendering of `fee / 10000`, embedding the template-literal
interpolation `${fee / 10000}` of `usePoolData.ts` (JavaScript prints the
exact value of the quotient, which for a fee in basis points has at most
four fractional digits, without trailing zeros). -/
def feePercentStr (fee : Nat) : String :=
  let q := fee / 10000
  let r := fee % 10000
  if r = 0 then toString q
  else
    let frac := (toString (10000 + r)).drop 1
    toString q ++ "." ++ String.mk ((frac.data.reverse.dropWhile (fun c => c == '0')).reverse)

/-- The message set by `usePoolData` when the factory resolves the zero address. -/
def poolNotFoundMsg (fee : Nat) : String :=
  "Pool not found for the given tokens and fee tier (" ++ feePercentStr fee ++ "%)"

/-- The error-reporting effect of `usePoolData`:

```
if (params && fee && !isPoolAddressLoading && poolAddress === '0x00...0') {
  setError(`Pool not found for the given tokens and fee tier (${fee / 10000}%)`);
} else { setError(null); }
```
-/
def poolDataError (hasParams : Bool) (fee : Nat) (isPoolAddressLoading : Bool)
    (poolAddress : Option Nat) : Option String :=
  if hasParams && !(fee == 0) && !isPoolAddressLoading && (poolAddress == some zeroAddress)
  then some (poolNotFoundMsg fee) else none

/-! ### Liquidity orchestrator: token ordering and amount selection -/

/-- `token0`/`token1` assignment in `useAddLiquidity`:

```
const isTokenAToken0 = tokenA.address.toLowerCase() < tokenB.address.toLowerCase();
return isTokenAToken0 ? [tokenA, tokenB] : [tokenB, tokenA];
```
-/
def sortTokens (tokenA tokenB : Token) : Token × Token :=
  if tokenA.address < tokenB.address then (tokenA, tokenB) else (tokenB, tokenA)

/-- Mapping of the user-supplied desired amounts onto `token0`/`token1` order
(`calculatedAmounts` memo of `useAddLiquidity`):

```
const amount0Desired = token0.address.toLowerCase() === tokenA?.address.toLowerCase()
    ? desiredAmountA.toString() : desiredAmountB.toString();
const amount1Desired = token1.address.toLowerCase() === tokenA?.address.toLowerCase()
    ? desiredAmountA.toString() : desiredAmountB.toString();
```
-/
def desiredAmount0And1 (tokenA tokenB : Token) (desiredAmountA desiredAmountB : Nat) :
    Nat × Nat :=
  let t01 := sortTokens tokenA tokenB
  let amount0 := if t01.fst.address = tokenA.address then desiredAmountA else desiredAmountB
  let amount1 := if t01.snd.address = tokenA.address then desiredAmountA else desiredAmountB
  (amount0, amount1)

/-- The `calculatedAmounts` memo of `useAddLiquidity`: the desired amounts are
mapped into `token0`/`token1` order and handed to the (external, deterministic)
`Position.fromAmounts`, passed here as the opaque argument `posFromAmounts`
taking the tick bounds and the desired `amount0`/`amount1`. -/
def calculatedAmounts (posFromAmounts : Int → Int → Nat → Nat → Nat × Nat)
    (tokenA tokenB : Token) (desiredAmountA desiredAmountB : Nat)
    (tickLower tickUpper : Int) : Nat × Nat :=
  let d := desiredAmount0And1 tokenA tokenB desiredAmountA desiredAmountB
  posFromAmounts tickLower tickUpper d.fst d.snd

/-! ### Liquidity orchestrator: transaction submission (`executeAddLiquidity`) -/

/-- `POOL_FEE = 100` in `useAddLiquidity.ts`. -/
def POOL_FEE : Nat := 100

/-- `DEADLINE_MINUTES = 10` in `useAddLiquidity.ts`. -/
def DEADLINE_MINUTES : Nat := 10

/-- The argument list passed to `agent.callAddLiquidity` by `executeAddLiquidity`. -/
structure AddLiqArgs where
  token0 : Nat
  token1 : Nat
  fee : Nat
  tickLower : Int
  tickUpper : Int
  amount0 : Nat
  amount1 : Nat
  amount0Min : Nat
  amount1Min : Nat
  recipient : Nat
  deadline : Nat
deriving DecidableEq, Repr

/-- The argument construction of `executeAddLiquidity` (`useAddLiquidity.ts`):

```
const amount0Min = BigInt(JSBI.divide(JSBI.multiply(calculatedAmounts.amount0,
    JSBI.BigInt(1000)), JSBI.BigInt(1005)).toString());
const amount1Min = ... JSBI.multiply(calculatedAmounts.amount1, JSBI.BigInt(1000)), JSBI.BigInt(1005) ...;
const deadline = BigInt(Math.floor(Date.now() / 1000) + 60 * DEADLINE_MINUTES);
writeAddLiquidity(\x7b ... args: [token0.address, token1.address, POOL_FEE, tickLower, tickUpper,
    amount0, amount1, amount0Min, amount1Min, userAddress, deadline] \x7d);
```

`nowMs` is the value of `Date.now()` at submission time. -/
def executeAddLiquidityArgs (token0Addr token1Addr : Nat) (tickLower tickUpper : Int)
    (amount0 amount1 : Nat) (userAddress : Nat) (nowMs : Nat) : AddLiqArgs :=
  { token0 := token0Addr
    token1 := token1Addr
    fee := POOL_FEE
    tickLower := tickLower
    tickUpper := tickUpper
    amount0 := amount0
    amount1 := amount1
    amount0Min := amount0 * 1000 / 1005
    amount1Min := amount1 * 1000 / 1005
    recipient := userAddress
    deadline := nowMs / 1000 + 60 * DEADLINE_MINUTES }

/-! ### Liquidity orchestrator: state machine -/

/-- `AddLiquidityStep` from `useAddLiquidity.ts`. -/
inductive LiqStep
  | idle
  | checkingBalances
  | checkingApprovals
  | approvingToken0
  | approvingToken1
  | addingLiquidity
  | complete
  | error
deriving DecidableEq, Repr

/-- Position of a step in the declared liquidity sequence
`idle → checking-balances → checking-approvals → approving-token0 →
approving-token1 → adding-liquidity → complete`. -/
def liqRank : LiqStep → Nat
  | .idle => 0
  | .checkingBalances => 1
  | .checkingApprovals => 2
  | .approvingToken0 => 3
  | .approvingToken1 => 4
  | .addingLiquidity => 5
  | .complete => 6
  | .error => 7

/-- An ERC-20 `approve(spender, amount)` transaction issued on `token`. -/
structure ApproveCall where
  token : Nat
  spender : Nat
  amount : Nat
deriving DecidableEq, Repr

/-- The guard and step transition of `executeAddLiquidity`: if any required
parameter (`agentAddress`, `agentAbi`, `chainId`, `userAddress`, `pool`,
`token0`, `token1`, `calculatedAmounts`, tick bounds) is missing the session
moves to `error`, otherwise to `adding-liquidity` and the transaction is
issued.  `execCtxOk` is the conjunction of those presence checks. -/
def executeAddLiquidityStep (execCtxOk : Bool) : LiqStep :=
  if execCtxOk then .addingLiquidity else .error

/-- The inputs of the approval decisions of `useAddLiquidity` that are fixed
during one `checking-approvals` pass. -/
structure LiqDecisionCtx where
  agent : Nat
  token0Addr : Nat
  token1Addr : Nat
  amount0Needed : Nat
  amount1Needed : Nat
  /-- guard of `checkAndApproveToken1`: `agentAddress`, `calculatedAmounts`,
  `token1` and `chainId` all present -/
  ctx1Ok : Bool
  /-- guard of `executeAddLiquidity`: all its required parameters present -/
  execCtxOk : Bool
deriving DecidableEq, Repr

/-- `checkAndApproveToken1` of `useAddLiquidity.ts`.  Re-reads token1's
allowance fresh (`allowance1Fresh`, defaulted to `0n` when the read resolves
without data); on a thrown read (`read1Failed`) moves to `error`.  When its
guard fails the function returns without any state change, modelled as `none`.

```
if (!agentAddress || !calculatedAmounts || !token1 || !chainId) { return; }
try {
  const allowance1 = (await refetchAllowance1()).data ?? 0n;
  if (allowance1 < amount1Needed) { setStep('approving-token1'); writeApprove1(...); }
  else { executeAddLiquidity(); }
} catch (e) { setError(...); setStep('error'); }
```
-/
def checkAndApproveToken1 (c : LiqDecisionCtx) (read1Failed : Bool)
    (allowance1Fresh : Option Nat) : Option (LiqStep × List ApproveCall) :=
  if c.ctx1Ok = false then none
  else if read1Failed then some (.error, [])
  else if allowance1Fresh.getD 0 < c.amount1Needed then
    some (.approvingToken1,
      [{ token := c.token1Addr, spender := c.agent, amount := c.amount1Needed }])
  else some (executeAddLiquidityStep c.execCtxOk, [])

/-- The `checking-approvals` branch of the main state-machine effect of
`useAddLiquidity.ts`: both allowances are read in parallel (each defaulted to
`0n` when the read resolves without data; a thrown read is `readFailed`), then

```
if (needsApproval0) { setStep('approving-token0'); writeApprove0(...); }
else if (needsApproval1) { checkAndApproveToken1(); }
else { executeAddLiquidity(); }
```

When `checkAndApproveToken1` early-returns without a state change the step
stays `checking-approvals` (the `getD` fallback). -/
def processCheckingApprovals (c : LiqDecisionCtx) (readFailed : Bool)
    (allowance0 allowance1 : Option Nat) (read1Failed : Bool)
    (allowance1Fresh : Option Nat) : LiqStep × List ApproveCall :=
  if readFailed then (.error, [])
  else if allowance0.getD 0 < c.amount0Needed then
    (.approvingToken0,
      [{ token := c.token0Addr, spender := c.agent, amount := c.amount0Needed }])
  else if allowance1.getD 0 < c.amount1Needed then
    (checkAndApproveToken1 c read1Failed allowance1Fresh).getD (.checkingApprovals, [])
  else (executeAddLiquidityStep c.execCtxOk, [])

/-- The synchronous validation of `callAddLiquidity` (`useAddLiquidity.ts`):
wallet connected, both addresses present, both parsed amounts positive;
invalid input goes straight to `error`, otherwise the session starts at
`checking-balances`.  An amount of `none` models a `parseFloat` result of
`NaN`. -/
def callAddLiquidityStart (walletOk : Bool) (tokenAAddr tokenBAddr : Option Nat)
    (amountA amountB : Option Nat) : LiqStep :=
  if walletOk = false then .error
  else if tokenAAddr = none ∨ tokenBAddr = none then .error
  else
    match amountA, amountB with
    | some a, some b => if a = 0 ∨ b = 0 then .error else .checkingBalances
    | _, _ => .error

/-- The balance-verification effect of `useAddLiquidity.ts`: if either balance
is below the requested amount the session moves to `error`, else to
`checking-approvals`. -/
def checkBalancesNext (balanceA balanceB requiredA requiredB : Nat) : LiqStep :=
  if balanceA < requiredA ∨ balanceB < requiredB then .error else .checkingApprovals

/-! ### Swap orchestrator -/

/-- `SwapStep` from `useCallSwap.ts`. -/
inductive SwapStep
  | idle
  | quoting
  | checkingApproval
  | approving
  | swapping
  | complete
  | error
deriving DecidableEq, Repr

/-- Position of a step in the declared swap sequence
`idle → quoting → checking-approval → approving → swapping → complete`. -/
def swapRank : SwapStep → Nat
  | .idle => 0
  | .quoting => 1
  | .checkingApproval => 2
  | .approving => 3
  | .swapping => 4
  | .complete => 5
  | .error => 6

/-- `SwapParams` from `useCallSwap.ts`. -/
structure SwapParams where
  tokenInAddress : Nat
  tokenOutAddress : Nat
  amountIn : Nat
  recipient : Option Nat
deriving DecidableEq, Repr

/-- `SWAP_FEE = 100` in `useCallSwap.ts`. -/
def SWAP_FEE : Nat := 100

/-- The ambient context consumed by `useCallSwap` (`useAgentApi()` and
`useAccount()`). -/
structure SwapCtx where
  agentAddress : Option Nat
  agentAbiOk : Bool
  chainId : Option Nat
  userAddress : Option Nat
deriving DecidableEq, Repr

/-- The argument list passed to `agent.callSwap` by `executeSwap`. -/
structure SwapCallArgs where
  tokenIn : Nat
  tokenOut : Nat
  fee : Nat
  amountIn : Nat
  amountOutMinimum : Nat
  recipient : Nat
  deadline : Nat
deriving DecidableEq, Repr

/-- `executeSwap` of `useCallSwap.ts`:

```
if (!agentAddress || !agentAbi || !chainId || !userAddress || !currentParams || !amountOutMinimum) {
  setError('Failed to execute swap due to missing parameters.'); setStep('error'); return;
}
setStep('swapping');
const recipient = currentParams.recipient || userAddress;
const deadline = BigInt(Math.floor(Date.now() / 1000) + 60 * 10);
writeSwap(\x7b ... args: [tokenInAddress, tokenOutAddress, SWAP_FEE, amountIn,
    amountOutMinimum, recipient, deadline] \x7d);
```

`amountOutMinimum = some 0` is falsy in JavaScript (`!0n` is `true`) and also
lands in the `error` branch. -/
def executeSwap (c : SwapCtx) (p : SwapParams) (amountOutMinimum : Option Nat)
    (nowMs : Nat) : SwapStep × Option SwapCallArgs :=
  match c.agentAddress, c.chainId, c.userAddress, amountOutMinimum with
  | some _, some _, some user, some minOut =>
    if c.agentAbiOk = false ∨ minOut = 0 then (.error, none)
    else
      (.swapping, some
        { tokenIn := p.tokenInAddress
          tokenOut := p.tokenOutAddress
          fee := SWAP_FEE
          amountIn := p.amountIn
          amountOutMinimum := minOut
          recipient := p.recipient.getD user
          deadline := nowMs / 1000 + 600 })
  | _, _, _, _ => (.error, none)

/-- The `checking-approval` branch of the main state-machine effect of
`useCallSwap.ts` (run immediately after the fresh allowance read):

```
const allowance = allowanceResult.data ?? 0n;
if (allowance < currentParams.amountIn) {
  setStep('approving');
  writeApprove(\x7b address: tokenInAddress, functionName: 'approve',
      args: [agentAddress, currentParams.amountIn] \x7d);
} else { executeSwap(); }
```

Returns the next step, the approve transactions issued, and the swap
transaction issued (if any). -/
def processCheckingApproval (c : SwapCtx) (p : SwapParams) (agent : Nat)
    (allowanceData : Option Nat) (amountOutMinimum : Option Nat) (nowMs : Nat) :
    SwapStep × List ApproveCall × Option SwapCallArgs :=
  let allowance := allowanceData.getD 0
  if allowance < p.amountIn then
    (.approving, [{ token := p.tokenInAddress, spender := agent, amount := p.amountIn }], none)
  else
    let r := executeSwap c p amountOutMinimum nowMs
    (r.fst, [], r.snd)

/-! ### Session error effects and receipt effects -/

/-- The per-session observable state of the swap orchestrator relevant to
error handling.  `swapTxHash`/`approveTxHash` are wagmi's `data` fields of the
two `useWriteContract` instances. -/
structure SwapSession where
  step : SwapStep
  errorMsg : Option String
  swapTxHash : Option Nat
  approveTxHash : Option Nat
deriving DecidableEq, Repr

/-- The transaction-error effect of `useCallSwap.ts`:

```
const message = txError.message.includes('User rejected') ? 'Transaction was rejected.' : txError.message;
setError(message); setStep('error');
```
-/
def swapTxErrorEffect (s : SwapSession) (m : String) : SwapSession :=
  { s with
    errorMsg := some (if hasSub m "User rejected" then "Transaction was rejected." else m)
    step := .error }

/-- The swap-receipt effect of `useCallSwap.ts`:
`if (isSwapSuccess) { setStep('complete'); }` — the hook consumes only the
success flag of `useWaitForTransactionReceipt`; a non-success outcome causes
no state change. -/
def swapReceiptEffect (s : SwapSession) (isSwapSuccess : Bool) : SwapSession :=
  if isSwapSuccess then { s with step := .complete } else s

/-- The per-session observable state of the liquidity orchestrator relevant to
error handling.  `connected` is the wallet connection, `addLiquidityTxHash` is
wagmi's `data` of the add-liquidity `useWriteContract`. -/
structure LiqSession where
  step : LiqStep
  errorMsg : Option String
  connected : Bool
  addLiquidityTxHash : Option Nat
deriving DecidableEq, Repr

/-- The message sanitization of `useAddLiquidity.ts`:

```
const message = txError.message.includes('User rejected')
    ? 'User rejected the transaction' : txError.message;
```
-/
def sanitizeLiqError (m : String) : String :=
  if hasSub m "User rejected" then "User rejected the transaction" else m

/-- `disconnectOnError` of `useAddLiquidity.ts`, as a predicate on the session
state captured by its closure:

```
if (step === 'error' && error?.includes('execution')) { disconnect(); resetAddLiquidity(); }
```
-/
def disconnectOnErrorFires (s : LiqSession) : Bool :=
  if s.step = .error then
    match s.errorMsg with
    | some e => hasSub e "execution"
    | none => false
  else false

/-- One run of the transaction-error effect of `useAddLiquidity.ts` for a
transaction error with message `m`:

```
const message = txError.message.includes('User rejected') ? 'User rejected the transaction' : txError.message;
setError(message); setDebugInfo(...); setStep('error');
if (txError.message.includes('execution reverted')) { disconnectOnError(); }
```

`disconnectOnError` reads `step` and `error` from the render that produced
this effect run, i.e. from `s`, not from the updates queued in the same run.
When it fires it calls `disconnect()` and `resetAddLiquidity()` (step `idle`,
error cleared), whose updates are queued after `setStep('error')` and
therefore win the batch.  Because `disconnectOnError` is in the effect's
dependency array, the effect runs again after the state update commits, so a
full handling of one transaction error is `liqTxErrorEffect` applied twice. -/
def liqTxErrorEffect (s : LiqSession) (m : String) : LiqSession :=
  let message := sanitizeLiqError m
  if hasSub m "execution reverted" && disconnectOnErrorFires s then
    { s with step := .idle, errorMsg := none, connected := false }
  else
    { s with step := .error, errorMsg := some message }

/-- The add-liquidity receipt effect of `useAddLiquidity.ts`:
`if (isAddLiquiditySuccess && addLiquidityTxHash) { setStep('complete'); }` —
only the success flag is consumed; a non-success outcome causes no state
change. -/
def liqReceiptEffect (s : LiqSession) (isAddLiquiditySuccess : Bool) : LiqSession :=
  if isAddLiquiditySuccess && s.addLiquidityTxHash.isSome then
    { s with step := .complete }
  else s

/-! ### Intra-session transition relations

The relations collect every `setStep` transition the two hooks can perform
within one orchestration session.  Destroying a session (`resetSwap`,
`resetAddLiquidity`, or starting a new session by re-invoking the entry
point) is not a session transition and is excluded, following the data model
of the specification (a session is "destroyed/reset when the caller
explicitly resets or starts a new session").
-/

/-- All intra-session `step` transitions of `useCallSwap.ts`. -/
inductive SwapTrans : SwapStep → SwapStep → Prop
  /-- `callSwap` with wallet and agent context present -/
  | callSwapOk : SwapTrans .idle .quoting
  /-- `callSwap` without wallet/agent context -/
  | callSwapNoWallet : SwapTrans .idle .error
  /-- quote failure (`quoteError` set) -/
  | quoteFail : SwapTrans .quoting .error
  /-- quote known but `agentAddress` missing -/
  | quoteNoAgent : SwapTrans .quoting .error
  /-- quote known: fresh allowance read begins -/
  | quoteOk : SwapTrans .quoting .checkingApproval
  /-- the decision after the fresh allowance read -/
  | approvalDecision (c : SwapCtx) (p : SwapParams) (agent : Nat)
      (allowanceData : Option Nat) (minOut : Option Nat) (nowMs : Nat)
      (st : SwapStep) (l : List ApproveCall) (a : Option SwapCallArgs) :
      processCheckingApproval c p agent allowanceData minOut nowMs = (st, l, a) →
      SwapTrans .checkingApproval st
  /-- approval confirmed: `executeSwap` runs -/
  | approvalConfirmed (c : SwapCtx) (p : SwapParams) (minOut : Option Nat)
      (nowMs : Nat) (st : SwapStep) (a : Option SwapCallArgs) :
      executeSwap c p minOut nowMs = (st, a) →
      SwapTrans .approving st
  /-- swap receipt success: `if (isSwapSuccess) { setStep('complete'); }` has no
  step guard, so it fires from whatever step the session is in when the
  receipt arrives -/
  | swapConfirmed (s : SwapStep) : SwapTrans s .complete
  /-- a transaction error observed at any time forces `error` -/
  | txError (s : SwapStep) : SwapTrans s .error

/-- All intra-session `step` transitions of `useAddLiquidity.ts`. -/
inductive LiqTrans : LiqStep → LiqStep → Prop
  /-- `callAddLiquidity` with valid input -/
  | startOk : LiqTrans .idle .checkingBalances
  /-- `callAddLiquidity` with invalid input or no wallet -/
  | startInvalid : LiqTrans .idle .error
  /-- balance verification: the effect at `useAddLiquidity.ts:121-148` has
  dependency array `[balances, currentParams]` and **no step guard**; the
  balances query is merely *enabled* while the step is `checking-balances`,
  and an in-flight read is not discarded when the step changes, so the effect
  can fire from whatever step the session is in when the balances resolve —
  in particular from `error`, when a racing pool failure moved the session
  there before the balance read landed -/
  | balancesChecked (s : LiqStep) (balanceA balanceB requiredA requiredB : Nat)
      (st : LiqStep) :
      checkBalancesNext balanceA balanceB requiredA requiredB = st →
      LiqTrans s st
  /-- the decision after the parallel allowance reads (a `checking-approvals`
  result of `checking-approvals` itself models `checkAndApproveToken1`
  returning without a state change, i.e. no transition) -/
  | approvalsChecked (c : LiqDecisionCtx) (readFailed : Bool)
      (allowance0 allowance1 : Option Nat) (read1Failed : Bool)
      (allowance1Fresh : Option Nat) (st : LiqStep) (l : List ApproveCall) :
      processCheckingApprovals c readFailed allowance0 allowance1 read1Failed allowance1Fresh
        = (st, l) →
      st ≠ .checkingApprovals →
      LiqTrans .checkingApprovals st
  /-- token0 approval confirmed: `checkAndApproveToken1` runs -/
  | approval0Confirmed (c : LiqDecisionCtx) (read1Failed : Bool)
      (allowance1Fresh : Option Nat) (st : LiqStep) (l : List ApproveCall) :
      checkAndApproveToken1 c read1Failed allowance1Fresh = some (st, l) →
      LiqTrans .approvingToken0 st
  /-- token1 approval confirmed: `executeAddLiquidity` runs -/
  | approval1Confirmed (execCtxOk : Bool) (st : LiqStep) :
      executeAddLiquidityStep execCtxOk = st →
      LiqTrans .approvingToken1 st
  /-- add-liquidity receipt success:
  `if (isAddLiquiditySuccess && addLiquidityTxHash) { setStep('complete'); }`
  has no step guard, so it fires from whatever step the session is in when
  the receipt arrives -/
  | liquidityAdded (s : LiqStep) : LiqTrans s .complete
  /-- a pool error, allowance-read error or transaction error observed at any
  time forces `error` -/
  | anyError (s : LiqStep) : LiqTrans s .error

/-! ### Helper lemmas about substring search -/

/-- If a concatenation occurs at the start of `s`, so does its first part. -/
theorem leadMatch_of_append (a b s : List Char) (h : leadMatch (a ++ b) s = true) :
    leadMatch a s = true := by
  induction a generalizing s with
  | nil => rfl
  | cons c cs ih =>
    cases s with
    | nil => simp [leadMatch] at h
    | cons d ds =>
      simp only [List.cons_append, leadMatch, Bool.and_eq_true] at h ⊢
      exact ⟨h.1, ih ds h.2⟩

/-- If a concatenation occurs in `s`, so does its first part. -/
theorem findSub_of_append (a b s : List Char) (h : findSub (a ++ b) s = true) :
    findSub a s = true := by
  induction s with
  | nil =>
    simp only [findSub] at h ⊢
    exact leadMatch_of_append a b [] h
  | cons d ds ih =>
    simp only [findSub, Bool.or_eq_true] at h ⊢
    rcases h with h | h
    · exact Or.inl (leadMatch_of_append a b (d :: ds) h)
    · exact Or.inr (ih h)

/-- A message containing `"execution reverted"` contains `"execution"`. -/
theorem hasSub_execution_of_reverted (m : String)
    (h : hasSub m "execution reverted" = true) : hasSub m "execution" = true := by
  have e : ("execution reverted").data = ("execution").data ++ (" reverted").data := by decide
  unfold hasSub at h ⊢
  rw [e] at h
  exact findSub_of_append _ _ _ h

/-! ### Claim theorems -/

/-- C1: for every pool state and every `amountIn > 0`, with the default
slippage factor of 50 bps, the computed quote's minimum output equals
`floor(estimatedOutput * 9950 / 10000)` (integer division rounding down,
`Nat` division), where the estimated output is whatever the pricing oracle
returns for the pool and input amount. -/
theorem swap_quote_default_slippage_minimum (p : Pool) (tIn tOut : Token)
    (amountIn : Nat) (oracle : PriceOracle) (est : Nat)
    (hpos : amountIn ≠ 0) (hq : oracle p tIn amountIn = Except.ok est) :
    calculateQuote (some p) (some tIn) (some tOut) amountIn oracle defaultSlippageFactor
      = (some { estimatedAmountOut := est, amountOutMinimum := est * 9950 / 10000 }, []) := by
  simp only [calculateQuote, if_neg hpos, hq]
  norm_num [defaultSlippageFactor]

/-- C1 witness: a concrete quote at the default slippage factor. -/
theorem swap_quote_default_slippage_minimum_witness :
    calculateQuote (some { sqrtPriceX96 := 1, tick := 0, liquidity := 5, fee := 100 })
        (some { chainId := 97, address := 1, decimals := 18, symbol := "A" })
        (some { chainId := 97, address := 2, decimals := 18, symbol := "B" })
        7 (fun _ _ _ => Except.ok 123457) defaultSlippageFactor
      = (some { estimatedAmountOut := 123457, amountOutMinimum := 123457 * 9950 / 10000 }, []) :=
  swap_quote_default_slippage_minimum _ _ _ _ _ _ (by decide) rfl

/-- C6: the quote computation returns the empty result (`none`) whenever
`amountIn` is zero, the pool is absent, or the input/output token is
unresolved (the code path taken when the tokens cannot be matched to the
pool's two tokens); a pricing-oracle exception yields `none` together with a
logged diagnostic.  `calculateQuote` is a total function, so no exception
escapes the quote boundary. -/
theorem quote_error_handling :
    (∀ pool tIn tOut oracle bps, (calculateQuote pool tIn tOut 0 oracle bps).fst = none) ∧
    (∀ tIn tOut n oracle bps, (calculateQuote none tIn tOut n oracle bps).fst = none) ∧
    (∀ pool tOut n oracle bps, (calculateQuote pool none tOut n oracle bps).fst = none) ∧
    (∀ pool tIn n oracle bps, (calculateQuote pool tIn none n oracle bps).fst = none) ∧
    (∀ p tIn tOut n (oracle : PriceOracle) bps e, n ≠ 0 → oracle p tIn n = Except.error e →
      calculateQuote (some p) (some tIn) (some tOut) n oracle bps
        = (none, ["Failed to calculate swap quote: " ++ e])) := by
  refine ⟨?_, ?_, ?_, ?_, ?_⟩
  · intro pool tIn tOut oracle bps
    cases pool <;> cases tIn <;> cases tOut <;> simp [calculateQuote]
  · intro tIn tOut n oracle bps
    cases tIn <;> cases tOut <;> simp [calculateQuote]
  · intro pool tOut n oracle bps
    cases pool <;> cases tOut <;> simp [calculateQuote]
  · intro pool tIn n oracle bps
    cases pool <;> cases tIn <;> simp [calculateQuote]
  · intro p tIn tOut n oracle bps e hn hq
    simp only [calculateQuote, if_neg hn, hq]

/-- C6 witness: a concrete pricing-oracle failure yields the empty quote and a
logged diagnostic. -/
theorem quote_error_handling_witness :
    calculateQuote (some { sqrtPriceX96 := 1, tick := 0, liquidity := 5, fee := 100 })
        (some { chainId := 97, address := 1, decimals := 18, symbol := "A" })
        (some { chainId := 97, address := 2, decimals := 18, symbol := "B" })
        3 (fun _ _ _ => Except.error "oracle boom") 50
      = (none, ["Failed to calculate swap quote: " ++ "oracle boom"]) :=
  quote_error_handling.2.2.2.2 _ _ _ _ _ _ _ (by decide) rfl

/-- C7: for a request with parameters present and a nonzero fee tier (the
factory lookup is only issued when `fee` is truthy), the pool reader reports
an error exactly when the lookup has finished loading and resolved the zero
address, and that error is the NotFound message embedding the human-readable
fee percentage `feePercentStr fee` followed by `%`; in all other cases the
error is `null`. -/
theorem pool_not_found_reporting (fee : Nat) (loading : Bool) (addr : Option Nat)
    (hfee : fee ≠ 0) :
    ((poolDataError true fee loading addr).isSome ↔
        loading = false ∧ addr = some zeroAddress) ∧
    poolDataError true fee false (some zeroAddress)
      = some ("Pool not found for the given tokens and fee tier ("
          ++ feePercentStr fee ++ "%)") ∧
    (∀ hp l a, poolDataError hp fee l a ≠ none →
        hp = true ∧ l = false ∧ a = some zeroAddress) := by
  have hbeq : (fee == 0) = false := by simpa using hfee
  refine ⟨?_, ?_, ?_⟩
  · cases loading <;> cases addr <;>
      simp [poolDataError, hbeq, zeroAddress]
  · simp [poolDataError, hbeq, poolNotFoundMsg]
  · intro hp l a h
    cases hp <;> cases l <;> cases a <;>
      simp_all [poolDataError, hbeq, zeroAddress]

/-- C7 witness: the concrete message for the fee tier 100 (0.01%). -/
theorem pool_not_found_reporting_witness :
    poolDataError true 100 false (some zeroAddress)
      = some "Pool not found for the given tokens and fee tier (0.01%)" :=
  ((pool_not_found_reporting 100 false (some zeroAddress) (by decide)).2.1).trans (by decide)

/-- The submitted minimum `a * 1000 / 1005` never exceeds the computed amount. -/
theorem liqMin_le (a : Nat) : a * 1000 / 1005 ≤ a := by omega

/-- The submitted minimum `a * 1000 / 1005` dominates the 99.5% floor. -/
theorem liqMin_ge_claimed (a : Nat) : a * 995 / 1000 ≤ a * 1000 / 1005 := by omega

/-- C5: the liquidity orchestrator's `token0`/`token1` assignment and the
computed deposit amounts are order-independent: swapping the caller-supplied
pair (and the amount inputs accordingly) yields the same sorted token pair and
the same computed amounts, for any deterministic `Position.fromAmounts`
collaborator. -/
theorem token_order_independence (tokenA tokenB : Token) (amountA amountB : Nat)
    (posFromAmounts : Int → Int → Nat → Nat → Nat × Nat) (tickLower tickUpper : Int)
    (h : tokenA.address ≠ tokenB.address) :
    sortTokens tokenA tokenB = sortTokens tokenB tokenA ∧
    calculatedAmounts posFromAmounts tokenA tokenB amountA amountB tickLower tickUpper
      = calculatedAmounts posFromAmounts tokenB tokenA amountB amountA tickLower tickUpper := by
  rcases Nat.lt_or_ge tokenA.address tokenB.address with hlt | hge
  · have hnlt : ¬ tokenB.address < tokenA.address := Nat.not_lt.mpr (Nat.le_of_lt hlt)
    constructor
    · simp [sortTokens, hlt, hnlt]
    · simp [calculatedAmounts, desiredAmount0And1, sortTokens, hlt, hnlt, h, Ne.symm h]
  · have hlt' : tokenB.address < tokenA.address :=
      Nat.lt_of_le_of_ne hge (fun e => h e.symm)
    have hnlt : ¬ tokenA.address < tokenB.address := Nat.not_lt.mpr (Nat.le_of_lt hlt')
    constructor
    · simp [sortTokens, hlt', hnlt]
    · simp [calculatedAmounts, desiredAmount0And1, sortTokens, hlt', hnlt, h, Ne.symm h]

/-- C5 witness: a concrete token pair called in both orders. -/
theorem token_order_independence_witness :
    (sortTokens { chainId := 97, address := 1, decimals := 18, symbol := "A" }
        { chainId := 97, address := 2, decimals := 18, symbol := "B" }
      = sortTokens { chainId := 97, address := 2, decimals := 18, symbol := "B" }
        { chainId := 97, address := 1, decimals := 18, symbol := "A" }) ∧
    calculatedAmounts (fun _ _ a b => (a + b, a * b))
        { chainId := 97, address := 1, decimals := 18, symbol := "A" }
        { chainId := 97, address := 2, decimals := 18, symbol := "B" } 30 3 (-100) 100
      = calculatedAmounts (fun _ _ a b => (a + b, a * b))
        { chainId := 97, address := 2, decimals := 18, symbol := "B" }
        { chainId := 97, address := 1, decimals := 18, symbol := "A" } 3 30 (-100) 100 :=
  token_order_independence _ _ _ _ _ _ _ (by decide)

/-- C2 counterexample: at computed amount 201 the submitted minimum is
`floor(201 * 1000 / 1005) = 200`, not `floor(201 * 995 / 1000) = 199` as the
claim states. -/
theorem add_liquidity_min_formula_cex :
    (executeAddLiquidityArgs 1 2 (-100) 100 201 201 7 0).amount0Min = 200 ∧
    201 * 995 / 1000 = 199 ∧
    (executeAddLiquidityArgs 1 2 (-100) 100 201 201 7 0).amount0Min ≠ 201 * 995 / 1000 := by
  decide

/-- C2 (amended): the add-liquidity transaction is submitted with
slippage-protected minimums `amount0Min = floor(amount0 * 1000 / 1005)` and
`amount1Min = floor(amount1 * 1000 / 1005)` — a tolerance of 1/201 ≈ 0.4975%,
which always dominates the claimed `floor(amount * 995 / 1000)` and never
exceeds the computed amount — together with a deadline of 10 minutes (600
seconds) after the submission-time clock and recipient equal to the connected
wallet address. -/
theorem add_liquidity_submission_args (token0Addr token1Addr : Nat)
    (tickLower tickUpper : Int) (amount0 amount1 userAddress nowMs : Nat) :
    (executeAddLiquidityArgs token0Addr token1Addr tickLower tickUpper
        amount0 amount1 userAddress nowMs).amount0Min = amount0 * 1000 / 1005 ∧
    (executeAddLiquidityArgs token0Addr token1Addr tickLower tickUpper
        amount0 amount1 userAddress nowMs).amount1Min = amount1 * 1000 / 1005 ∧
    amount0 * 995 / 1000 ≤ (executeAddLiquidityArgs token0Addr token1Addr tickLower tickUpper
        amount0 amount1 userAddress nowMs).amount0Min ∧
    (executeAddLiquidityArgs token0Addr token1Addr tickLower tickUpper
        amount0 amount1 userAddress nowMs).amount0Min ≤ amount0 ∧
    amount1 * 995 / 1000 ≤ (executeAddLiquidityArgs token0Addr token1Addr tickLower tickUpper
        amount0 amount1 userAddress nowMs).amount1Min ∧
    (executeAddLiquidityArgs token0Addr token1Addr tickLower tickUpper
        amount0 amount1 userAddress nowMs).amount1Min ≤ amount1 ∧
    (executeAddLiquidityArgs token0Addr token1Addr tickLower tickUpper
        amount0 amount1 userAddress nowMs).deadline = nowMs / 1000 + 600 ∧
    (executeAddLiquidityArgs token0Addr token1Addr tickLower tickUpper
        amount0 amount1 userAddress nowMs).recipient = userAddress :=
  ⟨rfl, rfl, liqMin_ge_claimed amount0, liqMin_le amount0,
    liqMin_ge_claimed amount1, liqMin_le amount1, rfl, rfl⟩

/-- C4: in the swap orchestrator, immediately after the fresh allowance read
in the `checking-approval` step (with the surrounding context intact: agent
address, ABI, chain, wallet present and a nonzero minimum output), if the
allowance is below `amountIn` the session moves to `approving` and issues
exactly one `approve(spender = agent, amount = amountIn)` transaction on the
input token; otherwise it moves directly to `swapping` with zero approval
transactions and the swap transaction issued. -/
theorem checking_approval_decision (c : SwapCtx) (p : SwapParams) (agent : Nat)
    (allowanceData : Option Nat) (minOut : Nat) (nowMs : Nat)
    (hagent : c.agentAddress = some agent) (habi : c.agentAbiOk = true)
    (hchain : c.chainId.isSome = true) (huser : c.userAddress.isSome = true)
    (hmin : minOut ≠ 0) :
    (allowanceData.getD 0 < p.amountIn →
      processCheckingApproval c p agent allowanceData (some minOut) nowMs
        = (.approving,
            [{ token := p.tokenInAddress, spender := agent, amount := p.amountIn }], none)) ∧
    (p.amountIn ≤ allowanceData.getD 0 →
      (processCheckingApproval c p agent allowanceData (some minOut) nowMs).fst = .swapping ∧
      (processCheckingApproval c p agent allowanceData (some minOut) nowMs).snd.fst = [] ∧
      (processCheckingApproval c p agent allowanceData (some minOut) nowMs).snd.snd.isSome
        = true) := by
  obtain ⟨chain, hchain'⟩ := Option.isSome_iff_exists.mp hchain
  obtain ⟨user, huser'⟩ := Option.isSome_iff_exists.mp huser
  constructor
  · intro hlt
    simp [processCheckingApproval, hlt]
  · intro hge
    have hnlt : ¬ allowanceData.getD 0 < p.amountIn := Nat.not_lt.mpr hge
    simp [processCheckingApproval, hnlt, executeSwap, hagent, hchain', huser', habi, hmin]

/-- C4 witness: a concrete insufficient allowance makes the session approve
exactly `amountIn` to the agent. -/
theorem checking_approval_decision_witness :
    processCheckingApproval
        { agentAddress := some 9, agentAbiOk := true, chainId := some 97, userAddress := some 55 }
        { tokenInAddress := 11, tokenOutAddress := 22, amountIn := 5, recipient := none }
        9 (some 3) (some 100) 0
      = (.approving, [{ token := 11, spender := 9, amount := 5 }], none) :=
  (checking_approval_decision
      { agentAddress := some 9, agentAbiOk := true, chainId := some 97, userAddress := some 55 }
      { tokenInAddress := 11, tokenOutAddress := 22, amountIn := 5, recipient := none }
      9 (some 3) 100 0 rfl rfl rfl rfl (by decide)).1 (by decide)

/-- C10: when the fresh allowance read resolves without data, the allowance is
defaulted to `0n`, so with a positive requested amount the session proceeds to
the approval step and issues the approval transaction — in both orchestrators
an allowance read that resolves without data is never surfaced as an error. -/
theorem allowance_read_failure_defaults_to_approval (c : SwapCtx) (p : SwapParams)
    (agent : Nat) (minOut : Option Nat) (nowMs : Nat)
    (cl : LiqDecisionCtx) (read1Failed : Bool) (allowance1Fresh : Option Nat)
    (hswap : 1 ≤ p.amountIn) (hliq : 1 ≤ cl.amount0Needed) :
    processCheckingApproval c p agent none minOut nowMs
      = (.approving,
          [{ token := p.tokenInAddress, spender := agent, amount := p.amountIn }], none) ∧
    processCheckingApprovals cl false none none read1Failed allowance1Fresh
      = (.approvingToken0,
          [{ token := cl.token0Addr, spender := cl.agent, amount := cl.amount0Needed }]) := by
  have h1 : p.amountIn ≠ 0 := by omega
  have h2 : cl.amount0Needed ≠ 0 := by omega
  constructor
  · simp [processCheckingApproval, h1]
  · simp [processCheckingApprovals, h2]

/-- C10 witness: a failed allowance read with a positive amount yields the
approval step, never an error, in both orchestrators. -/
theorem allowance_read_failure_defaults_to_approval_witness :
    processCheckingApproval
        { agentAddress := some 9, agentAbiOk := true, chainId := some 97, userAddress := some 55 }
        { tokenInAddress := 11, tokenOutAddress := 22, amountIn := 5, recipient := none }
        9 none (some 100) 0
      = (.approving, [{ token := 11, spender := 9, amount := 5 }], none) ∧
    processCheckingApprovals
        { agent := 9, token0Addr := 1, token1Addr := 2, amount0Needed := 40,
          amount1Needed := 50, ctx1Ok := true, execCtxOk := true }
        false none none false none
      = (.approvingToken0, [{ token := 1, spender := 9, amount := 40 }]) :=
  allowance_read_failure_defaults_to_approval _ _ _ _ _ _ _ _ (by decide) (by decide)

/-- C8 (amended): for a transaction error whose message contains
`"execution reverted"` but not `"User rejected"`, arriving in a session that
is not already in the fired-disconnect state, the session first transitions
to `error` with the raw underlying message surfaced (hash and connection
untouched); the updated state makes `disconnectOnError`'s condition true, and
on the effect's re-run (it depends on the updated callback) the defensive
policy fires: the wallet is disconnected and the session reset.  If the
message also contains `"User rejected"` it is sanitized first and the policy
never fires (see the counterexample). -/
theorem execution_revert_disconnect_policy (s : LiqSession) (m : String)
    (hrev : hasSub m "execution reverted" = true)
    (hrej : hasSub m "User rejected" = false)
    (hfresh : disconnectOnErrorFires s = false) :
    (liqTxErrorEffect s m).step = .error ∧
    (liqTxErrorEffect s m).errorMsg = some m ∧
    (liqTxErrorEffect s m).connected = s.connected ∧
    (liqTxErrorEffect s m).addLiquidityTxHash = s.addLiquidityTxHash ∧
    disconnectOnErrorFires (liqTxErrorEffect s m) = true ∧
    liqTxErrorEffect (liqTxErrorEffect s m) m
      = { step := .idle, errorMsg := none, connected := false,
          addLiquidityTxHash := s.addLiquidityTxHash } := by
  have hsan : sanitizeLiqError m = m := by simp [sanitizeLiqError, hrej]
  have h1 : liqTxErrorEffect s m = { s with step := .error, errorMsg := some m } := by
    simp [liqTxErrorEffect, hfresh, hsan]
  have hex : hasSub m "execution" = true := hasSub_execution_of_reverted m hrev
  have h2 : disconnectOnErrorFires
      ({ s with step := LiqStep.error, errorMsg := some m } : LiqSession) = true := by
    simp [disconnectOnErrorFires, hex]
  refine ⟨by rw [h1], by rw [h1], by rw [h1], by rw [h1], by rw [h1]; exact h2, ?_⟩
  rw [h1]
  simp [liqTxErrorEffect, h2, hrev]

/-- C8 witness: a concrete execution-revert error in the `adding-liquidity`
step surfaces the raw message and then triggers disconnect-and-reset. -/
theorem execution_revert_disconnect_policy_witness :
    (liqTxErrorEffect { step := .addingLiquidity, errorMsg := none, connected := true, addLiquidityTxHash := some 42 } "execution reverted: STF").step = .error ∧
    (liqTxErrorEffect { step := .addingLiquidity, errorMsg := none, connected := true, addLiquidityTxHash := some 42 } "execution reverted: STF").errorMsg
      = some "execution reverted: STF" ∧
    (liqTxErrorEffect { step := .addingLiquidity, errorMsg := none, connected := true, addLiquidityTxHash := some 42 } "execution reverted: STF").connected = true ∧
    (liqTxErrorEffect { step := .addingLiquidity, errorMsg := none, connected := true, addLiquidityTxHash := some 42 } "execution reverted: STF").addLiquidityTxHash = some 42 ∧
    disconnectOnErrorFires (liqTxErrorEffect { step := .addingLiquidity, errorMsg := none, connected := true, addLiquidityTxHash := some 42 } "execution reverted: STF") = true ∧
    liqTxErrorEffect (liqTxErrorEffect { step := .addingLiquidity, errorMsg := none, connected := true, addLiquidityTxHash := some 42 } "execution reverted: STF") "execution reverted: STF"
      = { step := .idle, errorMsg := none, connected := false, addLiquidityTxHash := some 42 } :=
  execution_revert_disconnect_policy
    { step := .addingLiquidity, errorMsg := none, connected := true, addLiquidityTxHash := some 42 }
    "execution reverted: STF" (by decide) (by decide) (by decide)

/-- C8 counterexample: a transaction error whose message contains
`"execution reverted"` but also `"User rejected"` is sanitized to the
friendly rejection message, so the raw message is never surfaced and the
defensive disconnect never happens — the claim fails for this input. -/
theorem execution_revert_rejected_message_cex :
    hasSub "User rejected: execution reverted" "execution reverted" = true ∧
    (liqTxErrorEffect { step := .addingLiquidity, errorMsg := none, connected := true, addLiquidityTxHash := some 42 } "User rejected: execution reverted").errorMsg
      ≠ some "User rejected: execution reverted" ∧
    disconnectOnErrorFires (liqTxErrorEffect { step := .addingLiquidity, errorMsg := none, connected := true, addLiquidityTxHash := some 42 } "User rejected: execution reverted")
      = false ∧
    (liqTxErrorEffect (liqTxErrorEffect { step := .addingLiquidity, errorMsg := none, connected := true, addLiquidityTxHash := some 42 } "User rejected: execution reverted") "User rejected: execution reverted").connected
      = true := by
  decide

/-- C9 counterexample: a transaction whose confirmation reports failure causes
no transition at all — the session keeps its current step instead of moving to
`error` (both orchestrators consume only the success flag of the receipt). -/
theorem receipt_failure_no_error_transition_cex :
    swapReceiptEffect { step := .swapping, errorMsg := none, swapTxHash := some 99, approveTxHash := none } false
      = { step := .swapping, errorMsg := none, swapTxHash := some 99, approveTxHash := none } ∧
    (swapReceiptEffect { step := .swapping, errorMsg := none, swapTxHash := some 99, approveTxHash := none } false).step ≠ .error ∧
    liqReceiptEffect { step := .addingLiquidity, errorMsg := none, connected := true, addLiquidityTxHash := some 77 } false
      = { step := .addingLiquidity, errorMsg := none, connected := true, addLiquidityTxHash := some 77 } ∧
    (liqReceiptEffect { step := .addingLiquidity, errorMsg := none, connected := true, addLiquidityTxHash := some 77 } false).step ≠ .error := by
  decide

/-- C9 (amended): the error-transition effects change only the step and the
error message and never clear the transaction-hash fields; a failed
transaction confirmation, however, produces no transition at all — the
orchestrators react only to success receipts, so on failure the session keeps
its current step (it does not move to `error`) with the hash fields
untouched. -/
theorem error_transition_preserves_tx_hash (s : SwapSession) (t : LiqSession)
    (m m2 : String) :
    (swapTxErrorEffect s m).swapTxHash = s.swapTxHash ∧
    (swapTxErrorEffect s m).approveTxHash = s.approveTxHash ∧
    (swapTxErrorEffect s m).step = .error ∧
    (liqTxErrorEffect t m2).addLiquidityTxHash = t.addLiquidityTxHash ∧
    swapReceiptEffect s false = s ∧
    liqReceiptEffect t false = t := by
  refine ⟨rfl, rfl, rfl, ?_, rfl, rfl⟩
  by_cases hb : (hasSub m2 "execution reverted" && disconnectOnErrorFires t) = true
  · simp [liqTxErrorEffect, hb]
  · simp [liqTxErrorEffect, hb]

/-- `executeSwap` only ever lands in `swapping` or `error`. -/
theorem executeSwap_step_cases (c : SwapCtx) (p : SwapParams) (minOut : Option Nat)
    (nowMs : Nat) :
    (executeSwap c p minOut nowMs).fst = .swapping ∨
    (executeSwap c p minOut nowMs).fst = .error := by
  unfold executeSwap
  rcases c.agentAddress with _ | a
  · right; rfl
  rcases c.chainId with _ | ch
  · right; rfl
  rcases c.userAddress with _ | u
  · right; rfl
  rcases minOut with _ | mo
  · right; rfl
  by_cases hb : c.agentAbiOk = false ∨ mo = 0
  · right; simp [hb]
  · left; simp [hb]

/-- The decision after the fresh allowance read only ever lands in
`approving`, `swapping` or `error`. -/
theorem processCheckingApproval_step_cases (c : SwapCtx) (p : SwapParams) (agent : Nat)
    (allowanceData : Option Nat) (minOut : Option Nat) (nowMs : Nat) :
    (processCheckingApproval c p agent allowanceData minOut nowMs).fst = .approving ∨
    (processCheckingApproval c p agent allowanceData minOut nowMs).fst = .swapping ∨
    (processCheckingApproval c p agent allowanceData minOut nowMs).fst = .error := by
  unfold processCheckingApproval
  by_cases hb : allowanceData.getD 0 < p.amountIn
  · left; simp [hb]
  · rcases executeSwap_step_cases c p minOut nowMs with h | h
    · right; left; simpa [hb] using h
    · right; right; simpa [hb] using h

/-- `executeAddLiquidityStep` only ever lands in `adding-liquidity` or `error`. -/
theorem executeAddLiquidityStep_cases (b : Bool) :
    executeAddLiquidityStep b = .addingLiquidity ∨ executeAddLiquidityStep b = .error := by
  cases b <;> simp [executeAddLiquidityStep]

/-- A `checkAndApproveToken1` run that changes state only ever lands in
`approving-token1`, `adding-liquidity` or `error`. -/
theorem checkAndApproveToken1_step_cases (c : LiqDecisionCtx) (read1Failed : Bool)
    (allowance1Fresh : Option Nat) (st : LiqStep) (l : List ApproveCall)
    (h : checkAndApproveToken1 c read1Failed allowance1Fresh = some (st, l)) :
    st = .approvingToken1 ∨ st = .addingLiquidity ∨ st = .error := by
  unfold checkAndApproveToken1 at h
  split at h
  · exact absurd h (by simp)
  · split at h
    · simp only [Option.some.injEq, Prod.mk.injEq] at h
      right; right; exact h.1.symm
    · split at h
      · simp only [Option.some.injEq, Prod.mk.injEq] at h
        left; exact h.1.symm
      · simp only [Option.some.injEq, Prod.mk.injEq] at h
        rcases executeAddLiquidityStep_cases c.execCtxOk with he | he <;>
          rw [← h.1, he]
        · right; left; rfl
        · right; right; rfl

/-- The decision after the parallel allowance reads only ever lands in
`error`, `approving-token0`, `approving-token1`, `adding-liquidity`, or stays
at `checking-approvals` (no state change). -/
theorem processCheckingApprovals_step_cases (c : LiqDecisionCtx) (readFailed : Bool)
    (allowance0 allowance1 : Option Nat) (read1Failed : Bool)
    (allowance1Fresh : Option Nat) :
    (processCheckingApprovals c readFailed allowance0 allowance1 read1Failed
        allowance1Fresh).fst = .error ∨
    (processCheckingApprovals c readFailed allowance0 allowance1 read1Failed
        allowance1Fresh).fst = .approvingToken0 ∨
    (processCheckingApprovals c readFailed allowance0 allowance1 read1Failed
        allowance1Fresh).fst = .approvingToken1 ∨
    (processCheckingApprovals c readFailed allowance0 allowance1 read1Failed
        allowance1Fresh).fst = .addingLiquidity ∨
    (processCheckingApprovals c readFailed allowance0 allowance1 read1Failed
        allowance1Fresh).fst = .checkingApprovals := by
  unfold processCheckingApprovals
  split
  · left; rfl
  · split
    · right; left; rfl
    · split
      · rcases hc : checkAndApproveToken1 c read1Failed allowance1Fresh with _ | ⟨st, l⟩
        · right; right; right; right; simp [hc]
        · have := checkAndApproveToken1_step_cases c read1Failed allowance1Fresh st l hc
          rcases this with h | h | h <;> simp [hc, h]
      · rcases executeAddLiquidityStep_cases c.execCtxOk with h | h
        · right; right; right; left; exact h
        · left; exact h

/-- C3 counterexample: the liquidity orchestrator's balance-verification
effect has no step guard, so when a pending balance read resolves with
sufficient balances after a racing pool error already moved the session to
`error`, the session transitions `error → checking-approvals` — a backward
transition that the claim forbids: it is neither a terminal jump, nor a
one-position advance, nor one of the skip-if-already-approved branches. -/
theorem unguarded_balance_effect_cex :
    LiqTrans .error .checkingApprovals ∧
    ¬ (LiqStep.checkingApprovals = LiqStep.error ∨
       LiqStep.checkingApprovals = LiqStep.complete ∨
       liqRank .checkingApprovals = liqRank .error + 1 ∨
       (LiqStep.error = LiqStep.checkingApprovals ∧
         LiqStep.checkingApprovals = LiqStep.approvingToken1) ∨
       (LiqStep.error = LiqStep.checkingApprovals ∧
         LiqStep.checkingApprovals = LiqStep.addingLiquidity) ∨
       (LiqStep.error = LiqStep.approvingToken0 ∧
         LiqStep.checkingApprovals = LiqStep.addingLiquidity)) := by
  constructor
  · exact LiqTrans.balancesChecked .error 5 5 1 1 .checkingApprovals (by decide)
  · decide

/-- C3 (amended): in the swap orchestrator, every intra-session step
transition either jumps to a terminal `error`/`complete` state or advances
exactly one position forward in the declared sequence, except for the
explicitly-allowed `checking-approval → swapping` skip.  In the liquidity
orchestrator the same holds — one-position advances, the
skip-if-already-approved branches (`checking-approvals → approving-token1`,
`checking-approvals → adding-liquidity`, `approving-token0 →
adding-liquidity`) and terminal jumps — except that the balance-verification
effect is not guarded by the current step: when a pending balance read
resolves it moves the session to `checking-approvals` (sufficient balances)
or `error` (insufficient) from whatever step the session is in, including
backward from `error`. -/
theorem step_transitions_follow_sequence :
    (∀ s t, SwapTrans s t → t = .error ∨ t = .complete ∨
        swapRank t = swapRank s + 1 ∨ (s = .checkingApproval ∧ t = .swapping)) ∧
    (∀ s t, LiqTrans s t → t = .error ∨ t = .complete ∨
        liqRank t = liqRank s + 1 ∨
        (s = .checkingApprovals ∧ t = .approvingToken1) ∨
        (s = .checkingApprovals ∧ t = .addingLiquidity) ∨
        (s = .approvingToken0 ∧ t = .addingLiquidity) ∨
        t = .checkingApprovals) := by
  constructor
  · intro s t h
    cases h with
    | callSwapOk => right; right; left; rfl
    | callSwapNoWallet => left; rfl
    | quoteFail => left; rfl
    | quoteNoAgent => left; rfl
    | quoteOk => right; right; left; rfl
    | approvalDecision c p agent ad minOut nowMs _ l a heq =>
      have hc := processCheckingApproval_step_cases c p agent ad minOut nowMs
      rw [heq] at hc
      rcases hc with h1 | h1 | h1
      · have ht : t = SwapStep.approving := h1
        subst ht
        right; right; left; rfl
      · have ht : t = SwapStep.swapping := h1
        subst ht
        right; right; right; exact ⟨rfl, rfl⟩
      · left; exact h1
    | approvalConfirmed c p minOut nowMs _ a heq =>
      have hc := executeSwap_step_cases c p minOut nowMs
      rw [heq] at hc
      rcases hc with h1 | h1
      · have ht : t = SwapStep.swapping := h1
        subst ht
        right; right; left; rfl
      · left; exact h1
    | swapConfirmed s => right; left; rfl
    | txError s => left; rfl
  · intro s t h
    cases h with
    | startOk => right; right; left; rfl
    | startInvalid => left; rfl
    | balancesChecked s bA bB rA rB _ heq =>
      unfold checkBalancesNext at heq
      split at heq
      · left; exact heq.symm
      · right; right; right; right; right; right; exact heq.symm
    | approvalsChecked c rf a0 a1 r1f a1f _ l heq hne =>
      have hc := processCheckingApprovals_step_cases c rf a0 a1 r1f a1f
      rw [heq] at hc
      rcases hc with h1 | h1 | h1 | h1 | h1
      · left; exact h1
      · have ht : t = LiqStep.approvingToken0 := h1
        subst ht
        right; right; left; rfl
      · have ht : t = LiqStep.approvingToken1 := h1
        subst ht
        right; right; right; left; exact ⟨rfl, rfl⟩
      · have ht : t = LiqStep.addingLiquidity := h1
        subst ht
        right; right; right; right; left; exact ⟨rfl, rfl⟩
      · exact absurd h1 hne
    | approval0Confirmed c r1f a1f _ l heq =>
      rcases checkAndApproveToken1_step_cases c r1f a1f t l heq with h1 | h1 | h1
      · subst h1
        right; right; left; rfl
      · subst h1
        right; right; right; right; right; left; exact ⟨rfl, rfl⟩
      · left; exact h1
    | approval1Confirmed execCtxOk _ heq =>
      rcases executeAddLiquidityStep_cases execCtxOk with h1 | h1
      · have ht : t = LiqStep.addingLiquidity := heq.symm.trans h1
        subst ht
        right; right; left; rfl
      · left; exact heq.symm.trans h1
    | liquidityAdded s => right; left; rfl
    | anyError s => left; rfl

/-- C3 witness: the `quoting → checking-approval` transition advances the
sequence by exactly one position. -/
theorem step_transitions_follow_sequence_witness :
    SwapStep.checkingApproval = SwapStep.error ∨
    SwapStep.checkingApproval = SwapStep.complete ∨
    swapRank .checkingApproval = swapRank .quoting + 1 ∨
    (SwapStep.quoting = SwapStep.checkingApproval ∧
      SwapStep.checkingApproval = SwapStep.swapping) :=
  step_transitions_follow_sequence.1 .quoting .checkingApproval SwapTrans.quoteOk

end Ailey
